import Mathlib

/-!
Shallow embedding of the Geotag-Plants-on-a-Farm client-side data
synchronization layer.

Source files embedded here:
* `src/services/api.js` (src/unnamed/part_009): the in-memory API cache,
  `fetchUserPlants`, `savePlantData`, `deletePlantData`, `clearCache`.
* `src/redux/slices/plantsSlice.js` (src/unnamed/part_008): the plants
  reducer (`uploadSuccess`, `fetchPlantsStart/Success/Failure`,
  `deletePlantStart/Success`, ...), which also writes the localStorage
  mirror via `savePlantsToLocal`.
* `src/utils/storage.js`: `savePlantsToLocal`, `loadPlantsFromLocal`.
* `src/App.jsx` (src/unnamed/part_002): startup flow (`loadPlantsFromLocal`
  then background `fetchUserPlants` sync).
* `src/components/upload/ImageUpload.jsx` (src/unnamed/part_007):
  `uploadSingleFile` (the create-record flow).
* `src/components/plants/PlantCard.jsx`: `handleDelete`.

Modelling conventions:
* JavaScript numbers are modelled as `Int` (for coordinates and progress)
  and timestamps as `Nat` milliseconds; none of the verified properties
  involve fractional values.
* JavaScript `undefined`/missing optional fields are modelled as
  `Option`; where the source coalesces with `||`, the JS truthiness of
  strings (`""` falsy), arrays (always truthy) and numbers (`0` falsy)
  is modelled explicitly.
* The remote HTTP boundary is modelled as an explicit outcome parameter:
  a 2xx response with `success: true` (with its payload), a response with
  `success: false`, or a thrown/network error.  Retries inside the axios
  interceptor happen below this boundary and are invisible here.
* `localStorage` is modelled as `Option String` (the content stored under
  the single key `farm-geotag-plants`); `localStorage.setItem` is modelled
  as always succeeding (the quota-exceeded catch in `savePlantsToLocal`
  is out of scope of the verified claims).
* `JSON.parse` is modelled by the executable recursive-descent parser
  `jsonParse` below (integers, strings, booleans, null, arrays, objects);
  `JSON.stringify` of a plants array by `serializePlants`.
-/

namespace Geotag

/-- A JSON value, the result type of the `JSON.parse` model.
Numbers are modelled as integers (see the header comment). -/
inductive Json where
  | null
  | bool (b : Bool)
  | num (n : Int)
  | str (s : String)
  | arr (elems : List Json)
  | obj (fields : List (String × Json))

/-- JSON whitespace. -/
def isWs (c : Char) : Bool :=
  c = ' ' || c = '\n' || c = '\t' || c = '\r'

/-- Drop leading JSON whitespace. -/
def skipWs : List Char → List Char
  | [] => []
  | c :: cs => if isWs c then skipWs cs else c :: cs

/-- Scan the characters of a JSON string literal after the opening quote;
returns the content and the remaining input after the closing quote. -/
def parseStrChars : List Char → Option (List Char × List Char)
  | [] => none
  | '"' :: cs => some ([], cs)
  | '\\' :: c :: cs =>
    let d := if c = 'n' then '\n' else if c = 't' then '\t' else c
    match parseStrChars cs with
    | some (s, rest) => some (d :: s, rest)
    | none => none
  | c :: cs =>
    match parseStrChars cs with
    | some (s, rest) => some (c :: s, rest)
    | none => none

/-- Take a maximal run of decimal digits. -/
def takeDigits : List Char → List Char × List Char
  | [] => ([], [])
  | c :: cs =>
    if c.isDigit then
      let r := takeDigits cs
      (c :: r.1, r.2)
    else ([], c :: cs)

/-- Decimal digits to a natural number. -/
def digitsToNat (ds : List Char) : Nat :=
  ds.foldl (fun acc c => acc * 10 + (c.toNat - 48)) 0

mutual

/-- Fuel-indexed recursive-descent parser for one JSON value. -/
def parseVal : Nat → List Char → Option (Json × List Char)
  | 0, _ => none
  | fuel + 1, input =>
    match skipWs input with
    | [] => none
    | c :: cs =>
      if c = 'n' then
        match cs with
        | 'u' :: 'l' :: 'l' :: rest => some (Json.null, rest)
        | _ => none
      else if c = 't' then
        match cs with
        | 'r' :: 'u' :: 'e' :: rest => some (Json.bool true, rest)
        | _ => none
      else if c = 'f' then
        match cs with
        | 'a' :: 'l' :: 's' :: 'e' :: rest => some (Json.bool false, rest)
        | _ => none
      else if c = '"' then
        match parseStrChars cs with
        | some (s, rest) => some (Json.str (String.mk s), rest)
        | none => none
      else if c = '-' then
        match takeDigits cs with
        | ([], _) => none
        | (ds, rest) => some (Json.num (-(digitsToNat ds : Int)), rest)
      else if c.isDigit then
        match takeDigits (c :: cs) with
        | (ds, rest) => some (Json.num (digitsToNat ds), rest)
      else if c = '[' then
        match skipWs cs with
        | ']' :: rest => some (Json.arr [], rest)
        | cs2 => parseElems fuel cs2
      else if c = '\x7b' then
        match skipWs cs with
        | '\x7d' :: rest => some (Json.obj [], rest)
        | cs2 => parseFields fuel cs2
      else none

/-- Parse a comma-separated list of array elements up to `]`. -/
def parseElems : Nat → List Char → Option (Json × List Char)
  | 0, _ => none
  | fuel + 1, input =>
    match parseVal fuel input with
    | none => none
    | some (v, rest) =>
      match skipWs rest with
      | ',' :: rest2 =>
        match parseElems fuel rest2 with
        | some (Json.arr vs, rest3) => some (Json.arr (v :: vs), rest3)
        | _ => none
      | ']' :: rest2 => some (Json.arr [v], rest2)
      | _ => none

/-- Parse a comma-separated list of object fields up to the closing brace. -/
def parseFields : Nat → List Char → Option (Json × List Char)
  | 0, _ => none
  | fuel + 1, input =>
    match skipWs input with
    | '"' :: cs =>
      match parseStrChars cs with
      | none => none
      | some (k, rest) =>
        match skipWs rest with
        | ':' :: rest2 =>
          match parseVal fuel rest2 with
          | none => none
          | some (v, rest3) =>
            match skipWs rest3 with
            | ',' :: rest4 =>
              match parseFields fuel rest4 with
              | some (Json.obj fs, rest5) => some (Json.obj ((String.mk k, v) :: fs), rest5)
              | _ => none
            | '\x7d' :: rest4 => some (Json.obj [(String.mk k, v)], rest4)
            | _ => none
        | _ => none
    | _ => none

end

/-- Model of `JSON.parse`: `none` models a thrown `SyntaxError`
(including trailing garbage after a complete value). -/
def jsonParse (s : String) : Option Json :=
  match parseVal (s.length + 1) s.data with
  | some (v, rest) => if skipWs rest = [] then some v else none
  | none => none

/-! ## Data model (spec §3, shapes used by `api.js` and the plants slice) -/

/-- A plant record as held in the Redux store and the persisted mirror. -/
structure Plant where
  id : String
  imageName : String
  imageUrl : String
  latitude : Int
  longitude : Int
  uploadedAt : String
  deriving DecidableEq, Repr

/-- A raw plant object as delivered by the remote service, before the
field normalization done in `api.js` (`plant._id || plant.id`,
`plant.uploadedAt || plant.createdAt`).  `mongoId` models the `_id`
field; `none` models a missing/undefined field. -/
structure RawPlant where
  mongoId : Option String
  plainId : Option String
  imageName : String
  imageUrl : String
  latitude : Int
  longitude : Int
  uploadedAt : Option String
  createdAt : Option String
  deriving DecidableEq, Repr

/-- JavaScript `a || b` on possibly-missing strings (`undefined` and `""`
are falsy); a missing final result is modelled as `""`. -/
def jsStrOr (a b : Option String) : String :=
  match a with
  | some s => if s = "" then b.getD "" else s
  | none => b.getD ""

/-- The normalization applied to each fetched plant in `fetchUserPlants`:
`id: plant._id || plant.id`, `uploadedAt: plant.uploadedAt || plant.createdAt`. -/
def mapRawPlant (r : RawPlant) : Plant :=
  { id := jsStrOr r.mongoId r.plainId,
    imageName := r.imageName,
    imageUrl := r.imageUrl,
    latitude := r.latitude,
    longitude := r.longitude,
    uploadedAt := jsStrOr r.uploadedAt r.createdAt }

/-- The normalization applied to the saved plant in `savePlantData`:
`id: data._id || data.id`, `uploadedAt: data.uploadedAt`. -/
def mapRawSaved (r : RawPlant) : Plant :=
  { id := jsStrOr r.mongoId r.plainId,
    imageName := r.imageName,
    imageUrl := r.imageUrl,
    latitude := r.latitude,
    longitude := r.longitude,
    uploadedAt := r.uploadedAt.getD "" }

/-! ## Persisted mirror (`src/utils/storage.js`) -/

/-- JSON string-escape for the characters the serializer must escape. -/
def escapeString (s : String) : String :=
  String.mk (s.data.foldr (fun c acc => (if c = '"' || c = '\\' then ['\\', c] else [c]) ++ acc) [])

/-- A JSON string literal. -/
def encodeStr (s : String) : String :=
  "\"" ++ escapeString s ++ "\""

/-- `JSON.stringify` of one plant object. -/
def plantJson (p : Plant) : String :=
  "\x7b\"id\":" ++ encodeStr p.id ++
    ",\"imageName\":" ++ encodeStr p.imageName ++
    ",\"imageUrl\":" ++ encodeStr p.imageUrl ++
    ",\"latitude\":" ++ toString p.latitude ++
    ",\"longitude\":" ++ toString p.longitude ++
    ",\"uploadedAt\":" ++ encodeStr p.uploadedAt ++ "\x7d"

/-- `JSON.stringify` of the plants array, as written to the mirror. -/
def serializePlants (ps : List Plant) : String :=
  "[" ++ String.intercalate "," (ps.map plantJson) ++ "]"

/-- `savePlantsToLocal` (storage.js): `localStorage.setItem(STORAGE_KEY,
JSON.stringify(plants))`.  The function returns the new mirror content;
the write is modelled as always succeeding (see header). -/
def savePlantsToLocal (plants : List Plant) : Option String :=
  some (serializePlants plants)

/-- `loadPlantsFromLocal` (storage.js): `const data =
localStorage.getItem(STORAGE_KEY); return data ? JSON.parse(data) : []`
with the whole body inside `try`, returning `[]` from `catch`.
`stored = none` models a missing key (`getItem` returned `null`);
an empty stored string is falsy and also yields `[]`; a parse error
(thrown `SyntaxError`) is caught and yields `[]`; any successfully
parsed value is returned unchecked. -/
def loadPlantsFromLocal (stored : Option String) : Json :=
  match stored with
  | none => Json.arr []
  | some data =>
    if data = "" then Json.arr []
    else
      match jsonParse data with
      | some v => v
      | none => Json.arr []

/-! ## Plants Redux slice (src/unnamed/part_008, `plantsSlice`)

Each reducer is a function on `PlantsState × Option String`: the slice
state together with the localStorage mirror content, because the
reducers `uploadSuccess`, `fetchPlantsSuccess` and `deletePlantSuccess`
call `savePlantsToLocal(state.plants)` as a side effect. -/

/-- The `filters` sub-object of the slice state. -/
structure PlantsFilters where
  sortBy : String
  searchTerm : String
  deriving DecidableEq, Repr

/-- The plants slice state (`initialState` shape of `plantsSlice`).
`uploadProgress` is the progress-by-image-name map, modelled as an
association list; `uploadQueue` holds the queued file names. -/
structure PlantsState where
  plants : List Plant
  loading : Bool
  uploadProgress : List (String × Int)
  error : Option String
  filters : PlantsFilters
  selectedPlant : Option Plant
  uploadQueue : List String
  deriving DecidableEq, Repr

/-- The slice's `initialState`. -/
def initialState : PlantsState :=
  { plants := []
    loading := false
    uploadProgress := []
    error := none
    filters := { sortBy := "date", searchTerm := "" }
    selectedPlant := none
    uploadQueue := [] }

/-- Set a key in the progress map (`state.uploadProgress[name] = v`). -/
def assocSet (k : String) (v : Int) : List (String × Int) → List (String × Int)
  | [] => [(k, v)]
  | e :: es => if e.1 = k then (k, v) :: es else e :: assocSet k v es

/-- Reducer `uploadStart`: initialize progress to 0 for the image. -/
def uploadStart (imageName : String) : PlantsState × Option String → PlantsState × Option String
  | (s, m) => ({ s with uploadProgress := assocSet imageName 0 s.uploadProgress }, m)

/-- Reducer `uploadSuccess`: `state.plants.unshift(action.payload)`,
delete the progress entry, then `savePlantsToLocal(state.plants)`. -/
def uploadSuccess (p : Plant) : PlantsState × Option String → PlantsState × Option String
  | (s, _m) =>
    let newPlants := p :: s.plants
    ({ s with
        plants := newPlants,
        uploadProgress := s.uploadProgress.filter (fun e => e.1 != p.imageName) },
      savePlantsToLocal newPlants)

/-- Reducer `uploadFailure`: drop the progress entry, set the error. -/
def uploadFailure (imageName : String) (msg : String) :
    PlantsState × Option String → PlantsState × Option String
  | (s, m) =>
    ({ s with
        uploadProgress := s.uploadProgress.filter (fun e => e.1 != imageName),
        error := some msg }, m)

/-- Reducer `fetchPlantsStart`: set loading, clear previous errors. -/
def fetchPlantsStart : PlantsState × Option String → PlantsState × Option String
  | (s, m) => ({ s with loading := true, error := none }, m)

/-- Reducer `fetchPlantsSuccess`: `state.plants = action.payload`,
stop loading, then `savePlantsToLocal(state.plants)`. -/
def fetchPlantsSuccess (payload : List Plant) :
    PlantsState × Option String → PlantsState × Option String
  | (s, _m) =>
    ({ s with plants := payload, loading := false }, savePlantsToLocal payload)

/-- Reducer `fetchPlantsFailure`: stop loading, set the error; the
plants array and the mirror are not touched. -/
def fetchPlantsFailure (msg : String) :
    PlantsState × Option String → PlantsState × Option String
  | (s, m) => ({ s with loading := false, error := some msg }, m)

/-- Reducer `deletePlantStart`: set loading. -/
def deletePlantStart : PlantsState × Option String → PlantsState × Option String
  | (s, m) => ({ s with loading := true }, m)

/-- Reducer `deletePlantSuccess`: `state.plants =
state.plants.filter(p => p.id !== action.payload)`, stop loading, then
`savePlantsToLocal(state.plants)`. -/
def deletePlantSuccess (pid : String) :
    PlantsState × Option String → PlantsState × Option String
  | (s, _m) =>
    let newPlants := s.plants.filter (fun p => p.id != pid)
    ({ s with plants := newPlants, loading := false }, savePlantsToLocal newPlants)

/-! ## API service with in-memory cache (src/unnamed/part_009, `api.js`) -/

/-- The module-level `cache` object of `api.js`: `plants` and
`timestamp` both start as `null` and are reset to `null` on
invalidation. -/
structure ApiCache where
  plants : Option (List Plant)
  timestamp : Option Nat
  deriving DecidableEq, Repr

/-- `cache.CACHE_DURATION`: 2 minutes in milliseconds. -/
def CACHE_DURATION : Nat := 2 * 60 * 1000

/-- JS truthiness of `cache.timestamp`: `null` and `0` are falsy. -/
def jsTruthyTs : Option Nat → Bool
  | none => false
  | some t => t != 0

/-- The cached-read guard of `fetchUserPlants`:
`!forceRefresh && cache.plants && cache.timestamp` and then
`cacheAge < cache.CACHE_DURATION` where `cacheAge = Date.now() -
cache.timestamp` (an array-valued `cache.plants` is always truthy). -/
def servedFromCache (forceRefresh : Bool) (now : Nat) (c : ApiCache) : Bool :=
  !forceRefresh && c.plants.isSome && jsTruthyTs c.timestamp &&
    decide ((now : Int) - ((c.timestamp.getD 0 : Nat) : Int) < (CACHE_DURATION : Int))

/-- The remote outcome of the `POST /get-plant-location-data` request:
a `success: true` body (whose `data` may be `null`), a `success: false`
body, or a thrown/network error. -/
inductive FetchOutcome where
  | ok (data : Option (List RawPlant))
  | rejected
  | netError
  deriving DecidableEq, Repr

/-- The result object returned by `fetchUserPlants`; `fromCache` is
absent (`none`) on the failure paths. -/
structure FetchResult where
  success : Bool
  data : List Plant
  error : Option String
  fromCache : Option Bool
  deriving DecidableEq, Repr

/-- `fetchUserPlants(forceRefresh)` of `api.js`.  Returns the result
object, the cache after the call, and whether the remote service was
contacted.  On a cached read the remote is not contacted and the cache
is unchanged; on a successful fetch the response is normalized
(`response.data.data || []` then `map`) and the cache updated; on a
`success: false` body or a thrown error the cache is left as it was. -/
def fetchUserPlants (forceRefresh : Bool) (now : Nat) (o : FetchOutcome) (c : ApiCache) :
    FetchResult × ApiCache × Bool :=
  if servedFromCache forceRefresh now c then
    ({ success := true, data := c.plants.getD [], error := none, fromCache := some true },
      c, false)
  else
    match o with
    | FetchOutcome.ok rawData =>
      let plants := (rawData.getD []).map mapRawPlant
      ({ success := true, data := plants, error := none, fromCache := some false },
        { plants := some plants, timestamp := some now }, true)
    | FetchOutcome.rejected =>
      ({ success := false, data := [], error := some "Failed to fetch plants", fromCache := none },
        c, true)
    | FetchOutcome.netError =>
      ({ success := false, data := [], error := some "API not available", fromCache := none },
        c, true)

/-- A plant draft as assembled by the upload flow before `savePlantData`. -/
structure PlantDraft where
  imageName : String
  imageUrl : String
  latitude : Int
  longitude : Int
  deriving DecidableEq, Repr

/-- The remote outcome of the `POST /save-plant-location-data` request. -/
inductive SaveOutcome where
  | ok (data : Option RawPlant)
  | rejected
  | netError
  deriving DecidableEq, Repr

/-- The result object returned by `savePlantData`. -/
structure SaveResult where
  success : Bool
  data : Option Plant
  error : Option String
  deriving DecidableEq, Repr

/-- `savePlantData(plantData)` of `api.js`.  The validation guard
`!plantData.imageName || !plantData.imageUrl || !plantData.latitude ||
!plantData.longitude` uses JS falsiness, so an empty string or a zero
coordinate fails it; the thrown `Error('Missing required plant data
fields')` is caught by the function's own catch block, which selects
`error.message` (the error has no `response`/`request`), and the remote
is never contacted.  On a `success: true` response the cache is
invalidated and the saved record normalized; on `success: false` or a
network error the cache is unchanged. -/
def savePlantData (d : PlantDraft) (o : SaveOutcome) (c : ApiCache) :
    SaveResult × ApiCache × Bool :=
  if d.imageName = "" ∨ d.imageUrl = "" ∨ d.latitude = 0 ∨ d.longitude = 0 then
    ({ success := false, data := none, error := some "Missing required plant data fields" },
      c, false)
  else
    match o with
    | SaveOutcome.ok rawOpt =>
      ({ success := true, data := rawOpt.map mapRawSaved, error := none },
        { plants := none, timestamp := none }, true)
    | SaveOutcome.rejected =>
      ({ success := false, data := none, error := some "Failed to save plant data" }, c, true)
    | SaveOutcome.netError =>
      ({ success := false, data := none,
         error := some "Network error. Please check your connection." }, c, true)

/-- The remote outcome of the `DELETE /delete-plant/:id` request. -/
inductive DeleteOutcome where
  | ok
  | rejected
  | netError
  deriving DecidableEq, Repr

/-- The result object returned by `deletePlantData`. -/
structure DeleteResult where
  success : Bool
  error : Option String
  deriving DecidableEq, Repr

/-- `deletePlantData(plantId)` of `api.js`.  On a `success: true`
response the cache is invalidated; on a thrown error the catch block
invalidates the cache and reports success (local deletion proceeds);
on a `success: false` response the function returns failure and the
cache is NOT invalidated (there is no invalidation in that branch of
the source). -/
def deletePlantData (plantId : String) (o : DeleteOutcome) (c : ApiCache) :
    DeleteResult × ApiCache :=
  match o with
  | DeleteOutcome.ok =>
    ({ success := true, error := none }, { plants := none, timestamp := none })
  | DeleteOutcome.rejected =>
    ({ success := false, error := some "Failed to delete plant" }, c)
  | DeleteOutcome.netError =>
    ({ success := true, error := none }, { plants := none, timestamp := none })

/-- `clearCache()` of `api.js`. -/
def clearCache (_c : ApiCache) : ApiCache :=
  { plants := none, timestamp := none }

/-! ## Composed flows -/

/-- Step 2 of the startup effect in `App.jsx` (src/unnamed/part_002):
`const localPlants = loadPlantsFromLocal(); if (localPlants &&
localPlants.length > 0) dispatch(fetchPlantsSuccess(localPlants)); else
dispatch(fetchPlantsSuccess([]))`, starting from the slice's initial
state and an untouched mirror.  `localPlants` is the already-decoded
plant list (the flow is modelled for a well-formed mirror). -/
def appStartupState (localPlants : List Plant) : PlantsState × Option String :=
  if 0 < localPlants.length then
    fetchPlantsSuccess localPlants (initialState, none)
  else
    fetchPlantsSuccess [] (initialState, none)

/-- The `loadFromAPI` background sync of `App.jsx`:
`dispatch(fetchPlantsStart()); const apiResult = await fetchUserPlants();
if (apiResult.success && apiResult.data.length > 0)
dispatch(fetchPlantsSuccess(apiResult.data)); else
dispatch(fetchPlantsSuccess(localPlants || []))`.  `fetchUserPlants`
never rejects (its whole body is inside `try`/`catch`), so the
`catch`/`fetchPlantsFailure` branch of the source is unreachable and
not part of this function.  `localPlants || []` is `localPlants`
itself, arrays being truthy. -/
def loadFromAPI (localPlants : List Plant) (now : Nat) (o : FetchOutcome) (c : ApiCache)
    (s : PlantsState × Option String) : (PlantsState × Option String) × ApiCache :=
  let s1 := fetchPlantsStart s
  let r := fetchUserPlants false now o c
  if r.1.success && decide (0 < r.1.data.length) then
    (fetchPlantsSuccess r.1.data s1, r.2.1)
  else
    (fetchPlantsSuccess localPlants s1, r.2.1)

/-- The `finalPlantData` object built in `uploadSingleFile`
(src/unnamed/part_007) from a non-null `saveResult.data`:
`id: saveResult.data.id || generateId()` and `uploadedAt:
saveResult.data.uploadedAt || new Date().toISOString()`, the remaining
fields from the draft. -/
def finalPlantOf (d : PlantDraft) (saved : Plant) (fallbackId nowIso : String) : Plant :=
  { id := if saved.id = "" then fallbackId else saved.id,
    imageName := d.imageName,
    imageUrl := d.imageUrl,
    latitude := d.latitude,
    longitude := d.longitude,
    uploadedAt := if saved.uploadedAt = "" then nowIso else saved.uploadedAt }

/-- The save part of `uploadSingleFile` (src/unnamed/part_007), after
image hosting and coordinate extraction have produced the draft:
`dispatch(uploadStart)`, `savePlantData`, and on success
`dispatch(uploadSuccess(finalPlantData))`; a `success: false` result or
a null `saveResult.data` (reading `.id` of `null` throws) lands in the
catch block, which dispatches `uploadFailure`.  Returns the new store
state and mirror, the new API cache, and the created record if any. -/
def createRecordFlow (d : PlantDraft) (o : SaveOutcome) (fallbackId nowIso : String)
    (c : ApiCache) (s : PlantsState × Option String) :
    (PlantsState × Option String) × ApiCache × Option Plant :=
  let s1 := uploadStart d.imageName s
  let r := savePlantData d o c
  if r.1.success then
    match r.1.data with
    | some saved =>
      let p := finalPlantOf d saved fallbackId nowIso
      (uploadSuccess p s1, r.2.1, some p)
    | none =>
      (uploadFailure d.imageName "Cannot read properties of null" s1, r.2.1, none)
  else
    (uploadFailure d.imageName (r.1.error.getD "Failed to save plant data") s1, r.2.1, none)

/-- The confirmed branch of `handleDelete` in `PlantCard.jsx`:
`dispatch(deletePlantStart()); await deletePlantData(plant.id);
dispatch(deletePlantSuccess(plant.id))`.  `deletePlantData` never
rejects (every path returns), so `deletePlantSuccess` is dispatched for
every remote outcome. -/
def handleDelete (plantId : String) (o : DeleteOutcome) (c : ApiCache)
    (s : PlantsState × Option String) : (PlantsState × Option String) × ApiCache :=
  let s1 := deletePlantStart s
  let r := deletePlantData plantId o c
  (deletePlantSuccess plantId s1, r.2)

/-! ## Shared test data and helper lemmas -/

/-- A sample plant record used as concrete input by several witnesses. -/
def testPlant : Plant :=
  { id := "p1", imageName := "a.jpg", imageUrl := "http://img/a.jpg",
    latitude := 15, longitude := 79, uploadedAt := "2024-01-01T00:00:00Z" }

/-- A sample valid plant draft used as concrete input by witnesses. -/
def testDraft : PlantDraft :=
  { imageName := "a.jpg", imageUrl := "http://u", latitude := 15, longitude := 79 }

/-- A sample raw remote response record used as concrete input by
witnesses: the remote assigned the id `"x1"`. -/
def testRaw : RawPlant :=
  { mongoId := some "x1", plainId := none, imageName := "a.jpg",
    imageUrl := "http://u", latitude := 15, longitude := 79,
    uploadedAt := some "2024-01-01T00:00:00Z", createdAt := none }

/-- A sample populated cache used as concrete input by witnesses. -/
def testCache : ApiCache :=
  { plants := some [testPlant], timestamp := some 5 }

/-! ## Claims about the storage layer -/

/-- C7: `loadPlantsFromLocal` never throws: for every persisted-mirror
content that is absent or that fails JSON parsing, it returns an empty
collection rather than letting an exception escape (the function is
total by construction; the interesting part is the uniform empty-array
fallback). -/
theorem loadPlantsFromLocal_fallback_empty (content : Option String)
    (h : content = none ∨ ∃ s, content = some s ∧ jsonParse s = none) :
    loadPlantsFromLocal content = Json.arr [] := by
  rcases h with h | ⟨s, rfl, hp⟩
  · subst h; rfl
  · unfold loadPlantsFromLocal
    by_cases hs : s = ""
    · simp [hs]
    · simp [hs, hp]

/-- Witness for C7 at the concrete malformed mirror content `"not json"`. -/
theorem loadPlantsFromLocal_fallback_empty_witness :
    loadPlantsFromLocal (some "not json") = Json.arr [] :=
  loadPlantsFromLocal_fallback_empty (some "not json") (Or.inr ⟨"not json", rfl, rfl⟩)

/-- C9: `loadPlantsFromLocal` returns the parsed JSON value unchecked:
any content that parses successfully is returned as-is, array or not;
the empty-collection fallback applies only to absent or unparseable
data. -/
theorem loadPlantsFromLocal_unchecked (s : String) (v : Json)
    (h : jsonParse s = some v) : loadPlantsFromLocal (some s) = v := by
  have hs : s ≠ "" := by
    intro e
    subst e
    rw [show jsonParse "" = none from rfl] at h
    exact Option.noConfusion h
  unfold loadPlantsFromLocal
  simp [hs, h]

/-- Witness for C9: the mirror content `"123"` parses to the non-array
value `123`, which is returned as-is. -/
theorem loadPlantsFromLocal_unchecked_witness :
    jsonParse "123" = some (Json.num 123) ∧
    loadPlantsFromLocal (some "123") = Json.num 123 :=
  ⟨rfl, loadPlantsFromLocal_unchecked "123" (Json.num 123) rfl⟩

/-! ## Claims about `savePlantData` validation -/

/-- C8: `savePlantData` rejects any draft whose latitude or longitude is
0 or whose `imageName`/`imageUrl` is missing (falsy): it returns
`success: false` with the message `Missing required plant data fields`,
does not contact the remote service, and leaves the cache unchanged. -/
theorem savePlantData_rejects_falsy (d : PlantDraft) (o : SaveOutcome) (c : ApiCache)
    (h : d.imageName = "" ∨ d.imageUrl = "" ∨ d.latitude = 0 ∨ d.longitude = 0) :
    savePlantData d o c =
      ({ success := false, data := none, error := some "Missing required plant data fields" },
        c, false) := by
  unfold savePlantData
  rw [if_pos h]

/-- Witness for C8: a draft with latitude 0 (a geometrically valid
coordinate) and all other fields present is rejected without a remote
call. -/
theorem savePlantData_rejects_falsy_witness :
    savePlantData { imageName := "a.jpg", imageUrl := "http://u", latitude := 0, longitude := 20 }
        (SaveOutcome.ok none) { plants := none, timestamp := none } =
      ({ success := false, data := none, error := some "Missing required plant data fields" },
        { plants := none, timestamp := none }, false) :=
  savePlantData_rejects_falsy _ _ _ (Or.inr (Or.inr (Or.inl rfl)))

/-! ## Claims about deletion -/

/-- C4 counterexample: with a populated cache, a remote delete whose
response body indicates failure (`success: false`) leaves the cache
completely unchanged — plants and timestamp both still set — refuting
the claim that every `deletePlantData` call invalidates the cache. -/
theorem deletePlantData_rejected_keeps_cache :
    (deletePlantData "p1" DeleteOutcome.rejected
        { plants := some [testPlant], timestamp := some 5 }).2 =
      { plants := some [testPlant], timestamp := some 5 } ∧
    (deletePlantData "p1" DeleteOutcome.rejected
        { plants := some [testPlant], timestamp := some 5 }).1.success = false ∧
    ({ plants := some [testPlant], timestamp := some 5 } : ApiCache).timestamp ≠ none :=
  ⟨rfl, rfl, fun h => Option.noConfusion h⟩

/-- C4 (amended): `deletePlantData` invalidates the cache on a 2xx
success response and on a thrown/network error, but leaves the cache
untouched when the remote responds with a body indicating failure. -/
theorem deletePlantData_cache_invalidation (plantId : String) (c : ApiCache) :
    (deletePlantData plantId DeleteOutcome.ok c).2 = { plants := none, timestamp := none } ∧
    (deletePlantData plantId DeleteOutcome.netError c).2 =
      { plants := none, timestamp := none } ∧
    (deletePlantData plantId DeleteOutcome.rejected c).2 = c :=
  ⟨rfl, rfl, rfl⟩

/-- C5: for every confirmed delete, `handleDelete` removes the record
with that id from the in-memory collection and rewrites the persisted
mirror to match, for every remote outcome alike (`deletePlantData`
never rejects, so `deletePlantSuccess` is always dispatched). -/
theorem handleDelete_removes_record (plantId : String) (o : DeleteOutcome) (c : ApiCache)
    (s : PlantsState × Option String) :
    (handleDelete plantId o c s).1.1.plants =
      s.1.plants.filter (fun p => p.id != plantId) ∧
    (handleDelete plantId o c s).1.2 =
      some (serializePlants (s.1.plants.filter (fun p => p.id != plantId))) := by
  rcases s with ⟨st, m⟩
  exact ⟨rfl, rfl⟩

/-- C6: after each successful mutation (`uploadSuccess`,
`fetchPlantsSuccess`, `deletePlantSuccess`) the persisted mirror holds
exactly the serialization of the new in-memory plant collection. -/
theorem mirror_reflects_after_mutations (p : Plant) (payload : List Plant) (plantId : String)
    (s : PlantsState × Option String) :
    (uploadSuccess p s).2 = some (serializePlants (uploadSuccess p s).1.plants) ∧
    (fetchPlantsSuccess payload s).2 =
      some (serializePlants (fetchPlantsSuccess payload s).1.plants) ∧
    (deletePlantSuccess plantId s).2 =
      some (serializePlants (deletePlantSuccess plantId s).1.plants) := by
  rcases s with ⟨st, m⟩
  exact ⟨rfl, rfl, rfl⟩

/-- C10: `deletePlantSuccess` is idempotent and total: deleting an id
not present leaves the collection's contents unchanged (while still
rewriting the mirror), and deleting the same id twice yields the same
collection as deleting it once. -/
theorem deletePlantSuccess_idempotent (plantId : String) (s : PlantsState × Option String) :
    ((∀ p ∈ s.1.plants, p.id ≠ plantId) →
      (deletePlantSuccess plantId s).1.plants = s.1.plants) ∧
    (deletePlantSuccess plantId (deletePlantSuccess plantId s)).1.plants =
      (deletePlantSuccess plantId s).1.plants ∧
    (deletePlantSuccess plantId s).2 =
      some (serializePlants (deletePlantSuccess plantId s).1.plants) := by
  rcases s with ⟨st, m⟩
  refine ⟨fun h => ?_, ?_, rfl⟩
  · show st.plants.filter (fun p => p.id != plantId) = st.plants
    exact List.filter_eq_self.mpr (fun a ha => by simpa using h a ha)
  · show ((st.plants.filter (fun p => p.id != plantId)).filter
        (fun p => p.id != plantId)) = st.plants.filter (fun p => p.id != plantId)
    exact List.filter_eq_self.mpr (fun a ha => (List.mem_filter.mp ha).2)

/-- Witness for C10: deleting the absent id `"zz"` from a collection
holding only `testPlant` leaves the collection unchanged. -/
theorem deletePlantSuccess_idempotent_witness :
    (deletePlantSuccess "zz" ({ initialState with plants := [testPlant] }, none)).1.plants =
      [testPlant] :=
  (deletePlantSuccess_idempotent "zz"
      ({ initialState with plants := [testPlant] }, none)).1 (by decide)

/-! ## Claims about the cache freshness policy -/

/-- The remote is contacted exactly when the cached-read guard fails. -/
lemma fetchUserPlants_contacted (f : Bool) (now : Nat) (o : FetchOutcome) (c : ApiCache) :
    (fetchUserPlants f now o c).2.2 = !servedFromCache f now c := by
  unfold fetchUserPlants
  by_cases h : servedFromCache f now c = true
  · simp [h]
  · cases o <;> simp [Bool.not_eq_true] at h <;> simp [h]

/-- Unfolding of the cached-read guard into its JS-truthiness parts. -/
lemma servedFromCache_iff (f : Bool) (now : Nat) (c : ApiCache) :
    servedFromCache f now c = true ↔
      f = false ∧ c.plants.isSome = true ∧
        ∃ t, c.timestamp = some t ∧ t ≠ 0 ∧
          (now : Int) - (t : Int) < (CACHE_DURATION : Int) := by
  rcases c with ⟨cp, ct⟩
  cases f <;> cases ct <;>
    simp [servedFromCache, jsTruthyTs, and_assoc]

/-- C2: `fetchUserPlants(forceRefresh)` contacts the remote service if
and only if `forceRefresh` is true, or the cache is empty/invalidated
(`plants` or `timestamp` null), or the cache age `now - fetchedAt` is
at least 120000 ms — the freshness window is a strict upper bound, so
an age of exactly 120000 ms forces a re-fetch; otherwise the cached
collection is returned without a network call and the cache is left
unchanged.  The hypothesis excludes the unreachable timestamp value 0
(`Date.now()` at the epoch), which JS truthiness would treat as an
invalidated cache. -/
theorem fetchUserPlants_cache_policy (forceRefresh : Bool) (now : Nat) (o : FetchOutcome)
    (c : ApiCache) (hwf : c.timestamp ≠ some 0) :
    ((fetchUserPlants forceRefresh now o c).2.2 = true ↔
      forceRefresh = true ∨ c.plants = none ∨ c.timestamp = none ∨
        ∃ t, c.timestamp = some t ∧
          (CACHE_DURATION : Int) ≤ (now : Int) - (t : Int)) ∧
    ((fetchUserPlants forceRefresh now o c).2.2 = false →
      (fetchUserPlants forceRefresh now o c).1 =
        { success := true, data := c.plants.getD [], error := none, fromCache := some true } ∧
      (fetchUserPlants forceRefresh now o c).2.1 = c) := by
  constructor
  · rw [fetchUserPlants_contacted, Bool.not_eq_eq_eq_not, Bool.not_true,
      ← Bool.not_eq_true, servedFromCache_iff]
    rcases c with ⟨cp, ct⟩
    rcases ct with _ | t
    · cases forceRefresh <;> cases cp <;> simp
    · have ht : t ≠ 0 := fun e => hwf (by rw [e])
      cases forceRefresh <;> cases cp <;>
        simp [ht]
  · intro hfalse
    rw [fetchUserPlants_contacted] at hfalse
    simp only [Bool.not_eq_false'] at hfalse
    unfold fetchUserPlants
    rw [if_pos hfalse]
    exact ⟨rfl, rfl⟩

/-- Witness for C2 at a concrete stale-by-exactly-120000ms cache: the
remote is contacted, and at the same cache one millisecond earlier it
is not and the cached data is returned. -/
theorem fetchUserPlants_cache_policy_witness :
    ((fetchUserPlants false 120001 FetchOutcome.netError
        { plants := some [testPlant], timestamp := some 1 }).2.2 = true ↔
      false = true ∨ some [testPlant] = none ∨ (some 1 : Option Nat) = none ∨
        ∃ t, (some 1 : Option Nat) = some t ∧
          (CACHE_DURATION : Int) ≤ (120001 : Int) - (t : Int)) ∧
    ((fetchUserPlants false 120001 FetchOutcome.netError
        { plants := some [testPlant], timestamp := some 1 }).2.2 = false →
      (fetchUserPlants false 120001 FetchOutcome.netError
          { plants := some [testPlant], timestamp := some 1 }).1 =
        { success := true, data := (some [testPlant]).getD [], error := none,
          fromCache := some true } ∧
      (fetchUserPlants false 120001 FetchOutcome.netError
          { plants := some [testPlant], timestamp := some 1 }).2.1 =
        { plants := some [testPlant], timestamp := some 1 }) :=
  fetchUserPlants_cache_policy false 120001 FetchOutcome.netError
    { plants := some [testPlant], timestamp := some 1 } (by simp)

/-! ## Claims about record creation -/

/-- Repeated `uploadSuccess` dispatches prepend in order: after a fold,
the collection is the dispatched records most-recent-first, in front of
whatever was there before. -/
lemma uploadSuccess_foldl_plants (records : List Plant) (s0 : PlantsState × Option String) :
    (records.foldl (fun st r => uploadSuccess r st) s0).1.plants =
      records.reverse ++ s0.1.plants := by
  induction records generalizing s0 with
  | nil => simp
  | cons r rs ih =>
    rcases s0 with ⟨st, m⟩
    rw [List.foldl_cons, ih]
    simp [uploadSuccess]

/-- C3: a successful `createRecord` (a `savePlantData` success followed
by the `uploadSuccess` dispatch) inserts the record carrying the
remote-assigned id at the front of the in-memory collection, rewrites
the persisted mirror, and invalidates the cache timestamp so that the
next `fetchUserPlants` contacts the remote regardless of arguments;
and any sequence of successful creates yields exactly those records
most-recent-first. -/
theorem createRecord_front_insert (d : PlantDraft) (raw : RawPlant)
    (fallbackId nowIso : String) (c : ApiCache) (s : PlantsState × Option String)
    (h1 : d.imageName ≠ "") (h2 : d.imageUrl ≠ "") (h3 : d.latitude ≠ 0) (h4 : d.longitude ≠ 0)
    (hid : jsStrOr raw.mongoId raw.plainId ≠ "") :
    (savePlantData d (SaveOutcome.ok (some raw)) c).1.success = true ∧
    (createRecordFlow d (SaveOutcome.ok (some raw)) fallbackId nowIso c s).2.2 =
      some (finalPlantOf d (mapRawSaved raw) fallbackId nowIso) ∧
    (finalPlantOf d (mapRawSaved raw) fallbackId nowIso).id =
      jsStrOr raw.mongoId raw.plainId ∧
    (createRecordFlow d (SaveOutcome.ok (some raw)) fallbackId nowIso c s).1.1.plants =
      finalPlantOf d (mapRawSaved raw) fallbackId nowIso :: s.1.plants ∧
    (createRecordFlow d (SaveOutcome.ok (some raw)) fallbackId nowIso c s).1.2 =
      some (serializePlants
        (finalPlantOf d (mapRawSaved raw) fallbackId nowIso :: s.1.plants)) ∧
    (createRecordFlow d (SaveOutcome.ok (some raw)) fallbackId nowIso c s).2.1 =
      { plants := none, timestamp := none } ∧
    (∀ (f2 : Bool) (now2 : Nat) (o2 : FetchOutcome),
      (fetchUserPlants f2 now2 o2
        (createRecordFlow d (SaveOutcome.ok (some raw)) fallbackId nowIso c s).2.1).2.2 =
          true) ∧
    (∀ (records : List Plant) (s0 : PlantsState × Option String),
      (records.foldl (fun st r => uploadSuccess r st) s0).1.plants =
        records.reverse ++ s0.1.plants) := by
  have hg : ¬(d.imageName = "" ∨ d.imageUrl = "" ∨ d.latitude = 0 ∨ d.longitude = 0) := by
    rintro (h | h | h | h)
    · exact h1 h
    · exact h2 h
    · exact h3 h
    · exact h4 h
  have hsave : savePlantData d (SaveOutcome.ok (some raw)) c =
      ({ success := true, data := some (mapRawSaved raw), error := none },
        { plants := none, timestamp := none }, true) := by
    unfold savePlantData
    rw [if_neg hg]
    rfl
  have hflow : createRecordFlow d (SaveOutcome.ok (some raw)) fallbackId nowIso c s =
      (uploadSuccess (finalPlantOf d (mapRawSaved raw) fallbackId nowIso)
          (uploadStart d.imageName s),
        { plants := none, timestamp := none },
        some (finalPlantOf d (mapRawSaved raw) fallbackId nowIso)) := by
    unfold createRecordFlow
    rw [hsave]
    rfl
  have hfid : (finalPlantOf d (mapRawSaved raw) fallbackId nowIso).id =
      jsStrOr raw.mongoId raw.plainId := by
    simp [finalPlantOf, mapRawSaved, hid]
  rcases s with ⟨st, m⟩
  refine ⟨by rw [hsave], by rw [hflow], hfid, ?_, ?_, by rw [hflow], ?_,
    uploadSuccess_foldl_plants⟩
  · rw [hflow]
    rfl
  · rw [hflow]
    rfl
  · intro f2 now2 o2
    rw [hflow, fetchUserPlants_contacted]
    simp [servedFromCache]

/-- Witness for C3 at a concrete draft, remote response and prior
state: the remote assigns id `"x1"` and the record lands at the front. -/
theorem createRecord_front_insert_witness :
    (savePlantData testDraft (SaveOutcome.ok (some testRaw)) testCache).1.success = true ∧
    (createRecordFlow testDraft (SaveOutcome.ok (some testRaw)) "localid" "2025-01-01T00:00:00Z"
        testCache (initialState, none)).2.2 =
      some (finalPlantOf testDraft (mapRawSaved testRaw) "localid" "2025-01-01T00:00:00Z") ∧
    (finalPlantOf testDraft (mapRawSaved testRaw) "localid" "2025-01-01T00:00:00Z").id =
      jsStrOr testRaw.mongoId testRaw.plainId ∧
    (createRecordFlow testDraft (SaveOutcome.ok (some testRaw)) "localid" "2025-01-01T00:00:00Z"
        testCache (initialState, none)).1.1.plants =
      finalPlantOf testDraft (mapRawSaved testRaw) "localid" "2025-01-01T00:00:00Z" ::
        (initialState, (none : Option String)).1.plants ∧
    (createRecordFlow testDraft (SaveOutcome.ok (some testRaw)) "localid" "2025-01-01T00:00:00Z"
        testCache (initialState, none)).1.2 =
      some (serializePlants
        (finalPlantOf testDraft (mapRawSaved testRaw) "localid" "2025-01-01T00:00:00Z" ::
          (initialState, (none : Option String)).1.plants)) ∧
    (createRecordFlow testDraft (SaveOutcome.ok (some testRaw)) "localid" "2025-01-01T00:00:00Z"
        testCache (initialState, none)).2.1 = { plants := none, timestamp := none } ∧
    (∀ (f2 : Bool) (now2 : Nat) (o2 : FetchOutcome),
      (fetchUserPlants f2 now2 o2
        (createRecordFlow testDraft (SaveOutcome.ok (some testRaw)) "localid"
          "2025-01-01T00:00:00Z" testCache (initialState, none)).2.1).2.2 = true) ∧
    (∀ (records : List Plant) (s0 : PlantsState × Option String),
      (records.foldl (fun st r => uploadSuccess r st) s0).1.plants =
        records.reverse ++ s0.1.plants) :=
  createRecord_front_insert testDraft testRaw "localid" "2025-01-01T00:00:00Z"
    testCache (initialState, none)
    (by decide) (by decide) (by decide) (by decide) (by decide)

/-! ## Claims about refresh failure handling -/

/-- After the startup dispatch, the store holds the locally loaded
plants and the mirror their serialization, whether or not the loaded
list was empty. -/
lemma appStartupState_eq (lp : List Plant) :
    appStartupState lp = ({ initialState with plants := lp }, some (serializePlants lp)) := by
  cases lp with
  | nil => rfl
  | cons p ps =>
    unfold appStartupState
    rw [if_pos (by simp)]
    rfl

/-- C1: if the remote collaborator fails during a refresh (a
`success: false` response body or a thrown/network error), the
previously held in-memory plant collection and the persisted mirror are
left unchanged — the prior local data stays exposed to the caller — the
API cache is untouched, the service result is tagged with a
soft-failure indicator (`success: false` plus an error message), and
the failure reducer `fetchPlantsFailure` records the error without
touching the plants.  The hypothesis `hc` states that the cached-read
guard does not short-circuit the call (otherwise the remote is never
consulted and cannot fail). -/
theorem refresh_failure_preserves_state (localPlants : List Plant) (now : Nat)
    (o : FetchOutcome) (c : ApiCache) (msg : String)
    (ho : o = FetchOutcome.rejected ∨ o = FetchOutcome.netError)
    (hc : servedFromCache false now c = false) :
    (loadFromAPI localPlants now o c (appStartupState localPlants)).1.1.plants =
      localPlants ∧
    (loadFromAPI localPlants now o c (appStartupState localPlants)).1.1.plants =
      (appStartupState localPlants).1.plants ∧
    (loadFromAPI localPlants now o c (appStartupState localPlants)).1.2 =
      (appStartupState localPlants).2 ∧
    (loadFromAPI localPlants now o c (appStartupState localPlants)).1.2 =
      some (serializePlants localPlants) ∧
    (loadFromAPI localPlants now o c (appStartupState localPlants)).2 = c ∧
    (fetchUserPlants false now o c).1.success = false ∧
    (fetchUserPlants false now o c).1.error ≠ none ∧
    (fetchPlantsFailure msg (appStartupState localPlants)).1.plants =
      (appStartupState localPlants).1.plants ∧
    (fetchPlantsFailure msg (appStartupState localPlants)).1.error = some msg := by
  have hnc : ¬(servedFromCache false now c = true) := by
    rw [hc]
    exact Bool.false_ne_true
  have hfetch : ∃ e, fetchUserPlants false now o c =
      ({ success := false, data := [], error := some e, fromCache := none }, c, true) := by
    rcases ho with rfl | rfl
    · exact ⟨"Failed to fetch plants", by unfold fetchUserPlants; rw [if_neg hnc]⟩
    · exact ⟨"API not available", by unfold fetchUserPlants; rw [if_neg hnc]⟩
  rcases hfetch with ⟨e, hfetch⟩
  have hload : loadFromAPI localPlants now o c (appStartupState localPlants) =
      (fetchPlantsSuccess localPlants (fetchPlantsStart (appStartupState localPlants)), c) := by
    unfold loadFromAPI
    rw [hfetch]
    rfl
  rw [hload, appStartupState_eq, hfetch]
  refine ⟨rfl, rfl, rfl, rfl, rfl, rfl, fun h => Option.noConfusion h, rfl, rfl⟩

/-- Witness for C1: a network error with an empty cache and one locally
loaded plant leaves the store, mirror and cache unchanged. -/
theorem refresh_failure_preserves_state_witness :
    (loadFromAPI [testPlant] 0 FetchOutcome.netError { plants := none, timestamp := none }
        (appStartupState [testPlant])).1.1.plants = [testPlant] ∧
    (loadFromAPI [testPlant] 0 FetchOutcome.netError { plants := none, timestamp := none }
        (appStartupState [testPlant])).1.1.plants = (appStartupState [testPlant]).1.plants ∧
    (loadFromAPI [testPlant] 0 FetchOutcome.netError { plants := none, timestamp := none }
        (appStartupState [testPlant])).1.2 = (appStartupState [testPlant]).2 ∧
    (loadFromAPI [testPlant] 0 FetchOutcome.netError { plants := none, timestamp := none }
        (appStartupState [testPlant])).1.2 = some (serializePlants [testPlant]) ∧
    (loadFromAPI [testPlant] 0 FetchOutcome.netError { plants := none, timestamp := none }
        (appStartupState [testPlant])).2 = { plants := none, timestamp := none } ∧
    (fetchUserPlants false 0 FetchOutcome.netError
        { plants := none, timestamp := none }).1.success = false ∧
    (fetchUserPlants false 0 FetchOutcome.netError
        { plants := none, timestamp := none }).1.error ≠ none ∧
    (fetchPlantsFailure "API unavailable" (appStartupState [testPlant])).1.plants =
      (appStartupState [testPlant]).1.plants ∧
    (fetchPlantsFailure "API unavailable" (appStartupState [testPlant])).1.error =
      some "API unavailable" :=
  refresh_failure_preserves_state [testPlant] 0 FetchOutcome.netError
    { plants := none, timestamp := none } "API unavailable" (Or.inr rfl) (by decide)

end Geotag
